import Mathlib

/-!
# VeriAI backend: verification of the handshake / anomaly-scoring core

A shallow embedding of the handshake-protocol and anomaly-detection code of
the VeriAI backend (`backend/app/handshake.py`, `backend/app/ml_detector.py`,
and the route handlers of `backend/app/main.py`), together with theorems
settling the behavioural claims about it.

Conventions of the embedding:
* Python byte strings are `List Nat` (each element intended `< 256`).
* Python `float` timestamps are modelled as `ℚ`; the real-valued entropy and
  anomaly-score arithmetic (`math`/`numpy` floats) is idealised over `ℝ`.
* Python dicts used as keyed stores are association lists; assignment
  prepends, lookup takes the most recent binding, which matches dict
  lookup semantics.
* Randomness (`secrets.token_hex`, `secrets.token_urlsafe`) and the clock
  (`time.time()`) are passed in as explicit parameters.
* A Python function that can raise is an `Except PyErr` value.
-/

/-! ## Bytes, UTF-8 and hex -/

/-- UTF-8 encoding of a single code point, as Python's `str.encode()`
produces for each character. -/
def utf8EncodeCharBytes (c : Char) : List Nat :=
  let n := c.toNat
  if n < 128 then [n]
  else if n < 2048 then [192 + n / 64, 128 + n % 64]
  else if n < 65536 then [224 + n / 4096, 128 + n / 64 % 64, 128 + n % 64]
  else [240 + n / 262144, 128 + n / 4096 % 64, 128 + n / 64 % 64, 128 + n % 64]

/-- Python `s.encode()`: UTF-8 bytes of a string. -/
def utf8Encode (s : String) : List Nat :=
  s.toList.flatMap utf8EncodeCharBytes

/-- Lower/upper hex digit character for a nibble value, as produced by
Python's lowercase hexadecimal formatting. -/
def hexChar (n : Nat) : Char :=
  if n < 10 then Char.ofNat (48 + n) else Char.ofNat (87 + n)

/-- Hex rendering of a byte list; for bytes `< 256` this is exactly what
Python's per-byte `%02x` formatting inside `hexdigest()` yields. -/
def bytesToHex (l : List Nat) : String :=
  String.mk (l.flatMap (fun b => [hexChar (b / 16 % 16), hexChar (b % 16)]))

/-- Python `str.isascii()`: every code point below 128.  This is the check
`hmac.compare_digest` performs on `str` arguments before comparing. -/
def isAsciiStr (s : String) : Bool :=
  s.toList.all (fun c => c.toNat < 128)

/-! ## SHA-256 (as used by `hmac.new(..., hashlib.sha256)`) -/

/-- Word size modulus: arithmetic in SHA-256 is modulo `2^32`. -/
def M32 : Nat := 4294967296

/-- Rotation of a 32-bit word to the right by `n`, in plain division/remainder
arithmetic. -/
def rotr32 (n x : Nat) : Nat := x / 2 ^ n + x % 2 ^ n * 2 ^ (32 - n)

/-- Logical right shift of a 32-bit word. -/
def shr32 (n x : Nat) : Nat := x / 2 ^ n

/-- 32-bit complement. -/
def not32 (x : Nat) : Nat := Nat.xor 4294967295 x

def sigmaSmall0 (x : Nat) : Nat := Nat.xor (Nat.xor (rotr32 7 x) (rotr32 18 x)) (shr32 3 x)

def sigmaSmall1 (x : Nat) : Nat := Nat.xor (Nat.xor (rotr32 17 x) (rotr32 19 x)) (shr32 10 x)

def sigmaBig0 (x : Nat) : Nat := Nat.xor (Nat.xor (rotr32 2 x) (rotr32 13 x)) (rotr32 22 x)

def sigmaBig1 (x : Nat) : Nat := Nat.xor (Nat.xor (rotr32 6 x) (rotr32 11 x)) (rotr32 25 x)

def chFn (x y z : Nat) : Nat := Nat.xor (Nat.land x y) (Nat.land (not32 x) z)

def majFn (x y z : Nat) : Nat :=
  Nat.xor (Nat.xor (Nat.land x y) (Nat.land x z)) (Nat.land y z)

/-- The 64 SHA-256 round constants (FIPS 180-4, written in decimal). -/
def sha256K : List Nat :=
  [1116352408, 1899447441, 3049323471, 3921009573, 961987163, 1508970993, 2453635748, 2870763221,
   3624381080, 310598401, 607225278, 1426881987, 1925078388, 2162078206, 2614888103, 3248222580,
   3835390401, 4022224774, 264347078, 604807628, 770255983, 1249150122, 1555081692, 1996064986,
   2554220882, 2821834349, 2952996808, 3210313671, 3336571891, 3584528711, 113926993, 338241895,
   666307205, 773529912, 1294757372, 1396182291, 1695183700, 1986661051, 2177026350, 2456956037,
   2730485921, 2820302411, 3259730800, 3345764771, 3516065817, 3600352804, 4094571909, 275423344,
   430227734, 506948616, 659060556, 883997877, 958139571, 1322822218, 1537002063, 1747873779,
   1955562222, 2024104815, 2227730452, 2361852424, 2428436474, 2756734187, 3204031479, 3329325298]

/-- Working registers of the SHA-256 compression function. -/
structure Sha256Regs where
  a : Nat
  b : Nat
  c : Nat
  d : Nat
  e : Nat
  f : Nat
  g : Nat
  h : Nat

/-- Initial register values of SHA-256 (FIPS 180-4, in decimal). -/
def sha256Init : Sha256Regs :=
  ⟨1779033703, 3144134277, 1013904242, 2773480762, 1359893119, 2600822924, 528734635, 1541459225⟩

/-- Big-endian bytes of a number, `k` bytes wide. -/
def natToBytesBE (k n : Nat) : List Nat :=
  (List.range k).map (fun i => n / 2 ^ (8 * (k - 1 - i)) % 256)

/-- SHA-256 padding: append `0x80`, zeros up to 56 mod 64, then the
64-bit big-endian bit length. -/
def sha256Pad (msg : List Nat) : List Nat :=
  let L := msg.length
  msg ++ 128 :: List.replicate ((119 - L % 64) % 64) 0 ++ natToBytesBE 8 (L * 8)

/-- A byte list regrouped into big-endian 32-bit words. -/
def bytesToWords (l : List Nat) : List Nat :=
  (List.range (l.length / 4)).map (fun i =>
    l.getD (4 * i) 0 * 16777216 + l.getD (4 * i + 1) 0 * 65536 +
      l.getD (4 * i + 2) 0 * 256 + l.getD (4 * i + 3) 0)

/-- The four big-endian bytes of one 32-bit word. -/
def wordToBytes (w : Nat) : List Nat :=
  [w / 16777216 % 256, w / 65536 % 256, w / 256 % 256, w % 256]

/-- Extend a 16-word block schedule by `n` further words. -/
def sha256Extend : List Nat → Nat → List Nat
  | w, 0 => w
  | w, n + 1 =>
      sha256Extend
        (w ++ [(sigmaSmall1 (w.getD (w.length - 2) 0) + w.getD (w.length - 7) 0 +
                sigmaSmall0 (w.getD (w.length - 15) 0) + w.getD (w.length - 16) 0) % M32])
        n

/-- One SHA-256 round. -/
def sha256Round (r : Sha256Regs) (kw : Nat × Nat) : Sha256Regs :=
  let t1 := (r.h + sigmaBig1 r.e + chFn r.e r.f r.g + kw.1 + kw.2) % M32
  let t2 := (sigmaBig0 r.a + majFn r.a r.b r.c) % M32
  ⟨(t1 + t2) % M32, r.a, r.b, r.c, (r.d + t1) % M32, r.e, r.f, r.g⟩

/-- Compression of a single 64-byte block into the running state. -/
def sha256Compress (H : Sha256Regs) (block : List Nat) : Sha256Regs :=
  let w := sha256Extend (bytesToWords block) 48
  let r := (sha256K.zip w).foldl sha256Round H
  ⟨(H.a + r.a) % M32, (H.b + r.b) % M32, (H.c + r.c) % M32, (H.d + r.d) % M32,
   (H.e + r.e) % M32, (H.f + r.f) % M32, (H.g + r.g) % M32, (H.h + r.h) % M32⟩

/-- SHA-256 digest (32 bytes) of a byte list. -/
def sha256 (msg : List Nat) : List Nat :=
  let p := sha256Pad msg
  let final := (List.range (p.length / 64)).foldl
    (fun H i => sha256Compress H ((p.drop (64 * i)).take 64)) sha256Init
  [final.a, final.b, final.c, final.d, final.e, final.f, final.g, final.h].flatMap wordToBytes

/-- HMAC-SHA256 (RFC 2104, block size 64), the algorithm behind
`hmac.new(secret_seed, nonce.encode(), hashlib.sha256)`. -/
def hmacSha256 (key msg : List Nat) : List Nat :=
  let k0 := if key.length > 64 then sha256 key else key
  let k1 := k0 ++ List.replicate (64 - k0.length) 0
  sha256 ((k1.map (fun b => Nat.xor b 92)) ++ sha256 ((k1.map (fun b => Nat.xor b 54)) ++ msg))

/-! ## Signatures (`HandshakeManager.generate_signature` / `verify_signature`) -/

/-- Errors a modelled Python operation can raise. `http` stands for
`fastapi.HTTPException(status_code, detail)`; `typeError` for a built-in
`TypeError` (raised e.g. by `hmac.compare_digest` on non-ASCII `str`
arguments). -/
inductive PyErr where
  | http (status : Nat) (detail : String)
  | typeError (msg : String)
  deriving DecidableEq

/-- `str(e)` for the exceptions above, as the route handlers' blanket
`except Exception as e: raise HTTPException(400, detail=str(e))` renders
them: starlette's `HTTPException.__str__` is `f"{status_code}: {detail}"`. -/
def strOfPyErr : PyErr → String
  | .http status detail => toString status ++ ": " ++ detail
  | .typeError msg => msg

/-- `HandshakeManager.generate_signature`: HMAC-SHA256 hexdigest of the
nonce (UTF-8 encoded) under the secret seed. -/
def generate_signature (nonce : String) (secret_seed : List Nat) : String :=
  bytesToHex (hmacSha256 secret_seed (utf8Encode nonce))

/-- `HandshakeManager.verify_signature`: recomputes the expected signature
and applies `hmac.compare_digest`.  For `str` arguments `compare_digest`
raises `TypeError` unless both are ASCII, and otherwise returns their
equality. -/
def verify_signature (nonce : String) (sig : String) (secret_seed : List Nat) :
    Except PyErr Bool :=
  let expected := generate_signature nonce secret_seed
  if isAsciiStr sig && isAsciiStr expected then .ok (sig == expected)
  else .error (.typeError "comparing strings with non-ASCII characters is not supported")

/-! ## Anomaly detection (`MLDetector`) -/

/-- One summand of the entropy loop of `MLDetector._calculate_entropy`:
`probability * log2(probability)` for the character `c` of the list `l`
(probability = count / length).  The loop's `if probability > 0` guard is
always true for a character that occurs in `l`. -/
noncomputable def entropyTerm (l : List Char) (c : Char) : ℝ :=
  ((l.count c : ℝ) / l.length) * Real.logb 2 ((l.count c : ℝ) / l.length)

/-- `str.lower()` applied per character.  (Python's `str.lower` maps each
character through Unicode lowercasing; for the ASCII strings handled here
the per-character map is exact.) -/
def pyLower (s : String) : String :=
  String.mk (s.toList.map Char.toLower)

/-- `MLDetector._calculate_entropy`: 0 for the empty string, otherwise
minus the sum over the distinct characters of the lowercased text of
`p * log2 p`, with `p = count / len(text)`.  The character-frequency dict
is built from `text.lower()`; iterating over its keys is iterating over
the distinct characters of the lowercased text. -/
noncomputable def calcEntropy (text : String) : ℝ :=
  if text.toList.isEmpty then 0
  else -(((text.toList.map Char.toLower).dedup.map
      (entropyTerm (text.toList.map Char.toLower))).sum)

/-- The claim's (and spec §4.4's) formula, stated verbatim for comparison:
Shannon entropy in bits of the string itself — for each distinct character
of the string, `p = count/length`, entropy `= -Σ p·log2(p)`; entropy of an
empty string is 0.  It differs from `calcEntropy` only in not lowercasing. -/
noncomputable def specShannonEntropy (t : String) : ℝ :=
  if t.toList.isEmpty then 0
  else -((t.toList.dedup.map (entropyTerm t.toList)).sum)

/-- The feature dict produced by `MLDetector.extract_features`. -/
structure Features where
  signature_verification : Nat
  response_latency_ms : ℝ
  message_entropy : ℝ
  handshake_duration : ℝ

/-- The threshold dict of `MLDetector`: normal ranges for latency and
duration, a minimum for entropy.  (The unused `signature_verification`
entry of the Python dict is omitted: `predict_anomaly` never reads it.) -/
structure Thresholds where
  response_latency_ms : ℝ × ℝ
  message_entropy : ℝ
  handshake_duration : ℝ × ℝ

/-- The hand-picked defaults installed by `MLDetector.__init__`. -/
def defaultThresholds : Thresholds :=
  { response_latency_ms := (50, 500), message_entropy := 2,
    handshake_duration := (100, 1000) }

open Classical in
/-- `MLDetector.predict_anomaly`'s additive rule score, accumulated in the
code one `if` after another; the four groups are independent, so the
running sum is the sum of the four contributions. -/
noncomputable def ruleScore (th : Thresholds) (f : Features) : ℝ :=
  (if f.signature_verification = 0 then 0.6 else 0)
  + (if f.response_latency_ms < th.response_latency_ms.1 then 0.3
     else if f.response_latency_ms > th.response_latency_ms.2 then 0.2 else 0)
  + (if f.message_entropy < th.message_entropy then 0.25 else 0)
  + (if f.handshake_duration < th.handshake_duration.1 then 0.2
     else if f.handshake_duration > th.handshake_duration.2 then 0.1 else 0)

/-- Python's `round(x, 3)`.  Python rounds half to even; every score this
model ever rounds is an integer multiple of 1/1000, where all rounding
conventions agree, so `round` (half away from zero on `ℝ`) is faithful. -/
noncomputable def round3 (x : ℝ) : ℝ :=
  ((round (x * 1000) : ℤ) : ℝ) / 1000

/-- `MLDetector.predict_anomaly`: the rule score, rounded to 3 decimals and
clamped by `min(1.0, ...)` — `return min(1.0, round(anomaly_score, 3))`.
The `try/except` returning 0.5 is unreachable here: the feature and
threshold records are total.  (The Python `.get` defaults for missing
feature keys are likewise unreachable: `extract_features` always sets all
four keys.) -/
noncomputable def predict_anomaly (th : Thresholds) (f : Features) : ℝ :=
  min 1 (round3 (ruleScore th f))

/-- The claim's description of the final score: `min(1.0, sum)` rounded to
3 decimal places. -/
noncomputable def specPredictAnomaly (th : Thresholds) (f : Features) : ℝ :=
  round3 (min 1 (ruleScore th f))

/-- One labeled training sample: a feature dict plus the `is_fraud` label. -/
structure Sample where
  signature_verification : Nat
  response_latency_ms : ℝ
  message_entropy : ℝ
  handshake_duration : ℝ
  is_fraud : Bool

/-- `statistics.mean`. -/
noncomputable def sampleMean (l : List ℝ) : ℝ := l.sum / l.length

/-- `statistics.stdev`: the sample standard deviation, dividing the sum of
squared deviations by `n - 1`.  (Python raises for `n < 2`; the code only
calls it under a `len > 1` guard.) -/
noncomputable def sampleStdev (l : List ℝ) : ℝ :=
  Real.sqrt ((l.map (fun x => (x - sampleMean l) ^ 2)).sum / ((l.length : ℝ) - 1))

open Classical in
/-- `MLDetector._calculate_thresholds`: no-op on empty training data or
when no non-fraud samples exist; otherwise recomputes the three threshold
entries from the non-fraud samples' mean and standard deviation, with the
std falling back to 50/100/0.5 when the sample list has length ≤ 1.  The
code's three `if latencies:`/`if durations:`/`if entropies:` guards hold
exactly when `normal_data` is nonempty, since each list is a `map` over
`normal_data`. -/
noncomputable def calculate_thresholds (td : List Sample) (th : Thresholds) : Thresholds :=
  if td.isEmpty then th
  else
    let normal := td.filter (fun d => !d.is_fraud)
    if normal.isEmpty then th
    else
      let latencies := normal.map (fun d => d.response_latency_ms)
      let durations := normal.map (fun d => d.handshake_duration)
      let entropies := normal.map (fun d => d.message_entropy)
      let lat_mean := sampleMean latencies
      let lat_std := if latencies.length > 1 then sampleStdev latencies else 50
      let dur_mean := sampleMean durations
      let dur_std := if durations.length > 1 then sampleStdev durations else 100
      let ent_mean := sampleMean entropies
      let ent_std := if entropies.length > 1 then sampleStdev entropies else 0.5
      { response_latency_ms := (max 10 (lat_mean - 2 * lat_std), lat_mean + 3 * lat_std),
        message_entropy := max 1 (ent_mean - 2 * ent_std),
        handshake_duration := (max 50 (dur_mean - 2 * dur_std), dur_mean + 3 * dur_std) }

/-- The mutable state of an `MLDetector` instance. -/
structure MLState where
  thresholds : Thresholds
  training_data : List Sample

/-- `MLDetector.train`: stores the training data and recomputes the
thresholds; returns `True` (the `except` branch is unreachable in the
model, the computation being total). -/
noncomputable def train (td : List Sample) (st : MLState) : MLState × Bool :=
  ({ thresholds := calculate_thresholds td st.thresholds, training_data := td }, true)

/-! ## Server data model and route handlers (`main.py`) -/

/-- An entry of `agents_db` (as built by
`HandshakeManager.register_agent`): the secret seed is stored as a string
and encoded to bytes at each use. -/
structure Agent where
  agent_id : String
  agent_type : String
  secret_seed : String
  registered_at : ℚ

/-- An entry of `handshakes_db` (as built by
`HandshakeManager.start_handshake`, then mutated in place by the
`/handshake/respond` handler).  Keys that are only set later are
`Option`s. -/
structure Handshake where
  handshake_id : String
  requester_id : String
  responder_id : String
  nonce : String
  created_at : ℚ
  status : String
  signature : Option String := none
  signature_valid : Option Bool := none
  response_time : Option ℚ := none

/-- `MLDetector.extract_features`: the four-feature dict of a handshake.
`signature_verification` is `int(signature_valid or False)`; latency is
`(response_time - created_at) * 1000` or 0 when no response was recorded;
entropy is `calcEntropy` of the stored signature (empty string when
absent); duration is `(now - created_at) * 1000` with `now = time.time()`.
(`created_at` is always present on a stored handshake, so the `.get`
fallback for it never fires.) -/
noncomputable def extract_features (h : Handshake) (now : ℚ) : Features :=
  { signature_verification := if h.signature_valid.getD false then 1 else 0,
    response_latency_ms :=
      match h.response_time with
      | some rt => ((((rt - h.created_at) * 1000 : ℚ) : ℝ))
      | none => 0,
    message_entropy := calcEntropy (h.signature.getD ""),
    handshake_duration := (((now - h.created_at) * 1000 : ℚ) : ℝ) }

/-- An entry of `sessions_db` (as built by the `/handshake/verify`
handler). -/
structure Session where
  token : String
  handshake_id : String
  requester_id : String
  responder_id : String
  created_at : ℚ
  expires_at : ℚ

/-- The JSON body returned by a successful `/handshake/verify`. -/
structure VerifyResult where
  status : String
  session_token : String
  anomaly_score : ℝ
  expires_at : ℚ

/-- Dict lookup on an association list (`db.get(key)` / `db[key]`):
the most recently stored binding wins. -/
def lookupA {α : Type} (k : String) : List (String × α) → Option α
  | [] => none
  | (k', v) :: rest => if k' = k then some v else lookupA k rest

/-- Dict assignment `db[key] = value`. -/
def insertA {α : Type} (k : String) (v : α) (l : List (String × α)) :
    List (String × α) :=
  (k, v) :: l

/-- The module-level mutable state of `main.py`: the three dict stores
plus the `MLDetector`'s thresholds (the only detector state
`/handshake/verify` reads). -/
structure ServerState where
  agents_db : List (String × Agent)
  handshakes_db : List (String × Handshake)
  sessions_db : List (String × Session)
  thresholds : Thresholds

/-- Request body of `/handshake/respond` (`HandshakeResponse`). -/
structure RespondRequest where
  handshake_id : String
  signature : String
  responder_id : String

/-- `HandshakeManager.start_handshake` as invoked by `/handshake/start`
after its 404 check on the responder: a fresh pending handshake.  The
random `handshake_id` and `nonce` (`secrets.token_hex(16)`) are
parameters. -/
def start_handshake (s : ServerState) (requester_id responder_id : String)
    (hid nonce : String) (now : ℚ) : Except PyErr (ServerState × Handshake) :=
  match lookupA responder_id s.agents_db with
  | none => .error (.http 404 "Responder agent not found")
  | some _ =>
      let handshake : Handshake :=
        { handshake_id := hid, requester_id := requester_id,
          responder_id := responder_id, nonce := nonce,
          created_at := now, status := "pending" }
      .ok ({ s with handshakes_db := insertA hid handshake s.handshakes_db }, handshake)

/-- The body of the `/handshake/respond` handler's `try` block: 404 if the
handshake or the responder's agent record is missing; verifies the
submitted signature against the key of the *request's* `responder_id`
(there is no check that it equals the handshake's stored
`responder_id`); then overwrites `signature`, `signature_valid` and
`response_time` on the stored handshake — and touches no other key, in
particular not `status`. -/
def respondCore (s : ServerState) (req : RespondRequest) (now : ℚ) :
    Except PyErr (ServerState × Bool) :=
  match lookupA req.handshake_id s.handshakes_db with
  | none => .error (.http 404 "Handshake not found")
  | some handshake =>
    match lookupA req.responder_id s.agents_db with
    | none => .error (.http 404 "Agent not found")
    | some agent =>
      match verify_signature handshake.nonce req.signature (utf8Encode agent.secret_seed) with
      | .error e => .error e
      | .ok is_valid =>
          let updated : Handshake :=
            { handshake with
                signature := some req.signature,
                signature_valid := some is_valid,
                response_time := some now }
          .ok ({ s with
                  handshakes_db := insertA req.handshake_id updated s.handshakes_db },
               is_valid)

/-- The `/handshake/respond` endpoint: the `try` body wrapped in
`except Exception as e: raise HTTPException(400, str(e))`.  FastAPI's
`HTTPException` derives from `Exception`, so even the deliberately raised
404s are caught and re-raised with status 400. -/
def respond_handshake (s : ServerState) (req : RespondRequest) (now : ℚ) :
    Except PyErr (ServerState × Bool) :=
  match respondCore s req now with
  | .ok x => .ok x
  | .error e => .error (.http 400 (strOfPyErr e))

/-- The body of the `/handshake/verify` handler's `try` block: 404 on an
unknown handshake id, 401 when `signature_valid` is falsy (absent or
`False`); otherwise issues a session (token from
`secrets.token_urlsafe(32)`, modelled by the `token` parameter; TTL from
`SESSION_TIMEOUT`, default 300), scores the handshake, and returns the
verification body.  The stored handshake itself is not modified — in
particular no status transition to `"verified"` happens. -/
noncomputable def verifyCore (s : ServerState) (handshake_id token : String)
    (now : ℚ) : Except PyErr (ServerState × VerifyResult) :=
  match lookupA handshake_id s.handshakes_db with
  | none => .error (.http 404 "Handshake not found")
  | some handshake =>
    if handshake.signature_valid.getD false then
      let session : Session :=
        { token := token, handshake_id := handshake_id,
          requester_id := handshake.requester_id,
          responder_id := handshake.responder_id,
          created_at := now, expires_at := now + 300 }
      let features := extract_features handshake now
      .ok ({ s with sessions_db := insertA token session s.sessions_db },
           { status := "verified", session_token := token,
             anomaly_score := predict_anomaly s.thresholds features,
             expires_at := now + 300 })
    else .error (.http 401 "Invalid signature")

/-- The `/handshake/verify` endpoint: `try` body wrapped in the blanket
`except Exception as e: raise HTTPException(400, str(e))`. -/
noncomputable def verify_handshake (s : ServerState) (handshake_id token : String)
    (now : ℚ) : Except PyErr (ServerState × VerifyResult) :=
  match verifyCore s handshake_id token now with
  | .ok x => .ok x
  | .error e => .error (.http 400 (strOfPyErr e))

/-! ## Concrete fixtures used by witnesses and counterexamples -/

/-- A registered agent distinct from any handshake's responder. -/
def agentX : Agent := ⟨"agent_x", "genuine", "k1", 0⟩

/-- A registered agent acting as responder. -/
def agentB : Agent := ⟨"agent_b", "genuine", "kb", 0⟩

/-- A freshly started (pending, unanswered) handshake addressed to
`agent_b`. -/
def handshakeH1 : Handshake := ⟨"h1", "agent_a", "agent_b", "00", 0, "pending", none, none, none⟩

/-- A handshake that already carries a failed verdict from an earlier
respond call. -/
def handshakeFailed : Handshake :=
  ⟨"h2", "agent_a", "agent_b", "01", 0, "pending", some "bad", some false, some 1⟩

/-- A handshake whose stored signature verified successfully. -/
def handshakeValid : Handshake :=
  ⟨"h3", "agent_a", "agent_b", "02", 0, "pending", some "sig", some true, some 1⟩

/-- A responded handshake whose recorded signature is `"Aa"`. -/
def handshakeAa : Handshake :=
  ⟨"h4", "agent_a", "agent_b", "03", 0, "pending", some "Aa", some true, some 1⟩

/-- Server state holding `agentX` and the pending `handshakeH1`. -/
def stateS1 : ServerState :=
  ⟨[("agent_x", agentX)], [("h1", handshakeH1)], [], defaultThresholds⟩

/-- Server state holding `agentB` and the previously failed
`handshakeFailed`. -/
def stateS2 : ServerState :=
  ⟨[("agent_b", agentB)], [("h2", handshakeFailed)], [], defaultThresholds⟩

/-- Server state holding the successfully responded `handshakeValid`. -/
def stateS3 : ServerState :=
  ⟨[], [("h3", handshakeValid)], [], defaultThresholds⟩

/-- Server state with no agents and no handshakes. -/
def stateEmpty : ServerState := ⟨[], [], [], defaultThresholds⟩

/-- A calibration dataset whose non-fraud samples all have latency exactly
150 (the scenario of spec §8). -/
def c9data : List Sample := [⟨1, 150, 200, 3.5, false⟩, ⟨1, 150, 220, 3.4, false⟩]

/-! ## Named shapes of the handler state updates -/

/-- The handshake record after a respond call: the three response keys
overwritten, everything else (in particular `status`) untouched. -/
def respondedHandshake (h : Handshake) (sig : String) (b : Bool) (now : ℚ) : Handshake :=
  { h with signature := some sig, signature_valid := some b, response_time := some now }

/-- The store update performed by `/handshake/respond`. -/
def respondedState (s : ServerState) (hid : String) (h' : Handshake) : ServerState :=
  { s with handshakes_db := insertA hid h' s.handshakes_db }

/-- The session record issued by `/handshake/verify`. -/
def issuedSession (hid tok : String) (h : Handshake) (now : ℚ) : Session :=
  ⟨tok, hid, h.requester_id, h.responder_id, now, now + 300⟩

/-- The store update performed by a successful `/handshake/verify`. -/
def verifiedState (s : ServerState) (tok : String) (sess : Session) : ServerState :=
  { s with sessions_db := insertA tok sess s.sessions_db }

/-- Whether an operation completed without raising. -/
def isOkE {α : Type} : Except PyErr α → Bool
  | .ok _ => true
  | .error _ => false

/-! ## Validation of the crypto layer against published test vectors -/

set_option maxRecDepth 4000 in
theorem sha256_abc_vector :
    bytesToHex (sha256 (utf8Encode "abc")) =
      "ba7816bf8f01cfea414140de5dae2223b00361a396177a9cb410ff61f20015ad" := by
  decide

set_option maxRecDepth 4000 in
theorem sha256_empty_vector :
    bytesToHex (sha256 (utf8Encode "")) =
      "e3b0c44298fc1c149afbf4c8996fb92427ae41e4649b934ca495991b7852b855" := by
  decide

set_option maxRecDepth 4000 in
theorem hmac_sha256_rfc4231_case2 :
    bytesToHex (hmacSha256 (utf8Encode "Jefe") (utf8Encode "what do ya want for nothing?")) =
      "5bdcc146bf60754e6a042426089575c75a003f089d2739839dec58b964ec3843" := by
  decide

/-! ## Hex digests are ASCII; `compare_digest` facts -/

theorem hexChar_ascii {m : Nat} (hm : m < 16) : (hexChar m).toNat < 128 := by
  interval_cases m <;> decide

theorem isAsciiStr_bytesToHex (l : List Nat) : isAsciiStr (bytesToHex l) = true := by
  simp only [isAsciiStr, bytesToHex, List.all_eq_true]
  intro c hc
  replace hc : c ∈ l.flatMap (fun b => [hexChar (b / 16 % 16), hexChar (b % 16)]) := hc
  rw [List.mem_flatMap] at hc
  obtain ⟨b, _, hb⟩ := hc
  simp only [List.mem_cons, List.mem_singleton, List.not_mem_nil, or_false] at hb
  rcases hb with h | h <;> subst h <;>
    exact decide_eq_true (hexChar_ascii (Nat.mod_lt _ (by norm_num)))

theorem isAsciiStr_generate_signature (nonce : String) (k : List Nat) :
    isAsciiStr (generate_signature nonce k) = true := by
  rw [generate_signature]; exact isAsciiStr_bytesToHex _

/-- On an ASCII candidate signature, `verify_signature` cannot raise: it
returns the string comparison of the candidate with the recomputed
signature. -/
theorem verify_signature_of_ascii (nonce sig : String) (k : List Nat)
    (hsig : isAsciiStr sig = true) :
    verify_signature nonce sig k = .ok (sig == generate_signature nonce k) := by
  simp [verify_signature, hsig, isAsciiStr_generate_signature]

/-- Verifying a correctly generated signature always succeeds. -/
theorem verify_generate_roundtrip (nonce : String) (k : List Nat) :
    verify_signature nonce (generate_signature nonce k) k = .ok true := by
  rw [verify_signature_of_ascii nonce _ k (isAsciiStr_generate_signature nonce k)]
  simp

/-! ## Behaviour of the respond / verify handlers -/

theorem lookupA_insertA_self {α : Type} (k : String) (v : α) (l : List (String × α)) :
    lookupA k (insertA k v l) = some v := by
  simp [lookupA, insertA]

/-- When the handshake and agent exist and signature verification
completes with verdict `b`, `respondCore` stores exactly the three
response keys and returns `b`. -/
theorem respondCore_ok (s : ServerState) (req : RespondRequest) (h : Handshake)
    (a : Agent) (b : Bool) (now : ℚ)
    (hh : lookupA req.handshake_id s.handshakes_db = some h)
    (ha : lookupA req.responder_id s.agents_db = some a)
    (hv : verify_signature h.nonce req.signature (utf8Encode a.secret_seed) = .ok b) :
    respondCore s req now =
      .ok (respondedState s req.handshake_id (respondedHandshake h req.signature b now), b) := by
  simp only [respondCore, hh, ha, hv, respondedState, respondedHandshake]

/-- The same, through the endpoint wrapper (a successful body passes
through the `except` unchanged). -/
theorem respond_handshake_ok (s : ServerState) (req : RespondRequest) (h : Handshake)
    (a : Agent) (b : Bool) (now : ℚ)
    (hh : lookupA req.handshake_id s.handshakes_db = some h)
    (ha : lookupA req.responder_id s.agents_db = some a)
    (hv : verify_signature h.nonce req.signature (utf8Encode a.secret_seed) = .ok b) :
    respond_handshake s req now =
      .ok (respondedState s req.handshake_id (respondedHandshake h req.signature b now), b) := by
  rw [respond_handshake, respondCore_ok s req h a b now hh ha hv]

/-- When the handshake exists and carries a truthy `signature_valid`,
`verifyCore` issues exactly one session under the supplied token and
leaves the handshake store untouched. -/
theorem verifyCore_ok (s : ServerState) (hid tok : String) (now : ℚ) (h : Handshake)
    (hh : lookupA hid s.handshakes_db = some h)
    (hv : h.signature_valid.getD false = true) :
    verifyCore s hid tok now =
      .ok (verifiedState s tok (issuedSession hid tok h now),
           ⟨"verified", tok, predict_anomaly s.thresholds (extract_features h now), now + 300⟩) := by
  simp only [verifyCore, hh, hv, if_true, verifiedState, issuedSession]

/-- The same, through the endpoint wrapper. -/
theorem verify_handshake_ok (s : ServerState) (hid tok : String) (now : ℚ) (h : Handshake)
    (hh : lookupA hid s.handshakes_db = some h)
    (hv : h.signature_valid.getD false = true) :
    verify_handshake s hid tok now =
      .ok (verifiedState s tok (issuedSession hid tok h now),
           ⟨"verified", tok, predict_anomaly s.thresholds (extract_features h now), now + 300⟩) := by
  rw [verify_handshake, verifyCore_ok s hid tok now h hh hv]

/-! ## C5 — sign/verify roundtrip -/

/-- C5: for every nonce `N` and secret key `K`, verifying the signature
produced by signing `N` with `K` succeeds:
`verify(N, sign(N, K), K) == true` (and no exception is raised). -/
theorem c5_verify_of_generate_succeeds (nonce : String) (k : List Nat) :
    verify_signature nonce (generate_signature nonce k) k = .ok true :=
  verify_generate_roundtrip nonce k

/-! ## C6 — verify on arbitrary candidate signatures -/

/-- C6 counterexample: `verify_signature` is *not* total on arbitrary
candidate strings — on the non-ASCII candidate `"é"`,
`hmac.compare_digest` raises `TypeError`, so the operation throws rather
than returning `false`. -/
theorem c6_counterexample :
    verify_signature "00" "é" [1] =
      .error (.typeError "comparing strings with non-ASCII characters is not supported") := by
  rfl

/-- C6 (amended): for every nonce, secret key and *ASCII* candidate
signature `S`, verification returns a boolean and never throws — namely
the equality of `S` with the recomputed signature, so a mismatched ASCII
candidate yields `false`.  (A non-ASCII candidate instead raises
`TypeError`, per the counterexample.) -/
theorem c6_verify_boolean_on_ascii (nonce sig : String) (k : List Nat)
    (hascii : isAsciiStr sig = true) :
    verify_signature nonce sig k = .ok (sig == generate_signature nonce k) :=
  verify_signature_of_ascii nonce sig k hascii

/-- C6 witness: the amended theorem applied at a concrete ASCII
candidate. -/
theorem c6_witness :
    isAsciiStr "zz" = true
    ∧ verify_signature "00" "zz" [1] = .ok ("zz" == generate_signature "00" [1]) :=
  ⟨by decide, c6_verify_boolean_on_ascii "00" "zz" [1] (by decide)⟩

/-! ## C1 — respond verifies against the caller-supplied responder id -/

/-- C1: for every pending handshake `h` and every registered agent `x` —
even one whose id differs from `h`'s recorded responder — responding with
`x`'s id and the signature of `h`'s nonce under `x`'s own secret seed
records `signature_valid = true` and reports success: the signature is
checked against the key of the *request's* `responder_id`, and the
handler never compares that id with `h.responder_id`. -/
theorem c1_respond_accepts_any_registered_agents_key
    (s : ServerState) (h : Handshake) (x : Agent) (hid xid : String)
    (sig : String) (now : ℚ)
    (hh : lookupA hid s.handshakes_db = some h)
    (hpending : h.status = "pending")
    (hx : lookupA xid s.agents_db = some x)
    (hdiff : xid ≠ h.responder_id)
    (hsig : sig = generate_signature h.nonce (utf8Encode x.secret_seed)) :
    respond_handshake s ⟨hid, sig, xid⟩ now
        = .ok (respondedState s hid (respondedHandshake h sig true now), true)
      ∧ lookupA hid (respondedState s hid (respondedHandshake h sig true now)).handshakes_db
          = some (respondedHandshake h sig true now)
      ∧ (respondedHandshake h sig true now).signature_valid = some true := by
  subst hsig
  refine ⟨respond_handshake_ok s _ h x true now hh hx (verify_generate_roundtrip _ _), ?_, rfl⟩
  simp [respondedState, lookupA_insertA_self]

/-- C1 witness: `agent_x` is registered, differs from `handshakeH1`'s
responder `agent_b`, and its self-signed response is recorded as valid. -/
theorem c1_witness :
    lookupA "h1" stateS1.handshakes_db = some handshakeH1
    ∧ "agent_x" ≠ handshakeH1.responder_id
    ∧ (respond_handshake stateS1
          ⟨"h1", generate_signature handshakeH1.nonce (utf8Encode agentX.secret_seed), "agent_x"⟩ 5
        = .ok (respondedState stateS1 "h1"
            (respondedHandshake handshakeH1
              (generate_signature handshakeH1.nonce (utf8Encode agentX.secret_seed)) true 5), true)
       ∧ lookupA "h1" (respondedState stateS1 "h1"
            (respondedHandshake handshakeH1
              (generate_signature handshakeH1.nonce (utf8Encode agentX.secret_seed)) true 5)).handshakes_db
          = some (respondedHandshake handshakeH1
              (generate_signature handshakeH1.nonce (utf8Encode agentX.secret_seed)) true 5)
       ∧ (respondedHandshake handshakeH1
            (generate_signature handshakeH1.nonce (utf8Encode agentX.secret_seed)) true 5).signature_valid
          = some true) :=
  ⟨rfl, by decide,
   c1_respond_accepts_any_registered_agents_key stateS1 handshakeH1 agentX "h1" "agent_x" _ 5
     rfl rfl rfl (by decide) rfl⟩

/-! ## C2 — what respond records -/

/-- C2 counterexample: responding to the pending `handshakeH1` with the
(wrong, ASCII) signature `"zz"` stores the verdict but leaves `status`
at `"pending"` — the handler never writes `status`, while the claim
requires `"responded"` or `"failed"`. -/
theorem c2_counterexample :
    respond_handshake stateS1 ⟨"h1", "zz", "agent_x"⟩ 5
        = .ok (respondedState stateS1 "h1"
            (respondedHandshake handshakeH1 "zz"
              ("zz" == generate_signature handshakeH1.nonce (utf8Encode agentX.secret_seed)) 5),
           ("zz" == generate_signature handshakeH1.nonce (utf8Encode agentX.secret_seed)))
      ∧ (respondedHandshake handshakeH1 "zz"
          ("zz" == generate_signature handshakeH1.nonce (utf8Encode agentX.secret_seed)) 5).status
         = "pending"
      ∧ "pending" ≠ "responded" ∧ "pending" ≠ "failed" := by
  refine ⟨respond_handshake_ok stateS1 _ handshakeH1 agentX _ 5 rfl rfl
    (verify_signature_of_ascii _ _ _ (by decide)), rfl, by decide, by decide⟩

/-- C2 (amended): for every existing handshake and registered responder,
and an ASCII submitted signature (a non-ASCII one raises instead),
`RespondHandshake` records the submitted signature, sets
`signature_valid` to the verification result, sets
`response_time = now`, and returns the verdict — but leaves the
handshake's `status` unchanged (it does *not* move to `"responded"` or
`"failed"`). -/
theorem c2_respond_records_fields_status_unchanged
    (s : ServerState) (req : RespondRequest) (h : Handshake) (a : Agent) (now : ℚ)
    (hh : lookupA req.handshake_id s.handshakes_db = some h)
    (ha : lookupA req.responder_id s.agents_db = some a)
    (hascii : isAsciiStr req.signature = true) :
    ∃ (st : ServerState) (b : Bool),
      respond_handshake s req now = .ok (st, b)
      ∧ b = (req.signature == generate_signature h.nonce (utf8Encode a.secret_seed))
      ∧ lookupA req.handshake_id st.handshakes_db = some (respondedHandshake h req.signature b now)
      ∧ (respondedHandshake h req.signature b now).signature = some req.signature
      ∧ (respondedHandshake h req.signature b now).signature_valid = some b
      ∧ (respondedHandshake h req.signature b now).response_time = some now
      ∧ (respondedHandshake h req.signature b now).status = h.status := by
  refine ⟨respondedState s req.handshake_id
      (respondedHandshake h req.signature
        (req.signature == generate_signature h.nonce (utf8Encode a.secret_seed)) now),
    req.signature == generate_signature h.nonce (utf8Encode a.secret_seed),
    respond_handshake_ok s req h a _ now hh ha (verify_signature_of_ascii _ _ _ hascii),
    rfl, ?_, rfl, rfl, rfl, rfl⟩
  simp [respondedState, lookupA_insertA_self]

/-- C2 witness: the amended theorem applied to `stateS1` with the ASCII
signature `"zz"`. -/
theorem c2_witness :
    lookupA "h1" stateS1.handshakes_db = some handshakeH1
    ∧ lookupA "agent_x" stateS1.agents_db = some agentX
    ∧ isAsciiStr "zz" = true
    ∧ ∃ (st : ServerState) (b : Bool),
        respond_handshake stateS1 ⟨"h1", "zz", "agent_x"⟩ 5 = .ok (st, b)
        ∧ b = ("zz" == generate_signature handshakeH1.nonce (utf8Encode agentX.secret_seed))
        ∧ lookupA "h1" st.handshakes_db = some (respondedHandshake handshakeH1 "zz" b 5)
        ∧ (respondedHandshake handshakeH1 "zz" b 5).signature = some "zz"
        ∧ (respondedHandshake handshakeH1 "zz" b 5).signature_valid = some b
        ∧ (respondedHandshake handshakeH1 "zz" b 5).response_time = some 5
        ∧ (respondedHandshake handshakeH1 "zz" b 5).status = handshakeH1.status :=
  ⟨rfl, rfl, by decide,
   c2_respond_records_fields_status_unchanged stateS1 ⟨"h1", "zz", "agent_x"⟩
     handshakeH1 agentX 5 rfl rfl (by decide)⟩

/-! ## C10 — respond is repeatable and re-enables verify -/

/-- C10: `RespondHandshake` has no state precondition — for *any* stored
handshake, whatever its current `status`, `signature`, `signature_valid`
or `response_time` (in particular after an earlier respond recorded
`signature_valid = false`), a later respond with the correct signature
overwrites all three response keys, records `signature_valid = true`,
and a subsequent `VerifyHandshake` then succeeds and issues a session. -/
theorem c10_respond_overwrites_and_reenables_verify
    (s : ServerState) (h : Handshake) (a : Agent) (hid aid tok : String)
    (sig : String) (now t2 : ℚ)
    (hh : lookupA hid s.handshakes_db = some h)
    (ha : lookupA aid s.agents_db = some a)
    (hsig : sig = generate_signature h.nonce (utf8Encode a.secret_seed)) :
    respond_handshake s ⟨hid, sig, aid⟩ now
        = .ok (respondedState s hid (respondedHandshake h sig true now), true)
      ∧ (respondedHandshake h sig true now).signature = some sig
      ∧ (respondedHandshake h sig true now).signature_valid = some true
      ∧ (respondedHandshake h sig true now).response_time = some now
      ∧ verify_handshake (respondedState s hid (respondedHandshake h sig true now)) hid tok t2
          = .ok (verifiedState (respondedState s hid (respondedHandshake h sig true now)) tok
                   (issuedSession hid tok (respondedHandshake h sig true now) t2),
                 ⟨"verified", tok,
                  predict_anomaly s.thresholds
                    (extract_features (respondedHandshake h sig true now) t2),
                  t2 + 300⟩) := by
  subst hsig
  refine ⟨respond_handshake_ok s _ h a true now hh ha (verify_generate_roundtrip _ _),
    rfl, rfl, rfl, ?_⟩
  exact verify_handshake_ok _ hid tok t2 _
    (by simp [respondedState, lookupA_insertA_self]) rfl

/-- C10 witness: `handshakeFailed` carries `signature_valid = some false`
from an earlier respond; responding again with the correct signature
flips it to `true` and verify then succeeds. -/
theorem c10_witness :
    handshakeFailed.signature_valid = some false
    ∧ lookupA "h2" stateS2.handshakes_db = some handshakeFailed
    ∧ lookupA "agent_b" stateS2.agents_db = some agentB
    ∧ (respond_handshake stateS2
          ⟨"h2", generate_signature handshakeFailed.nonce (utf8Encode agentB.secret_seed), "agent_b"⟩ 5
        = .ok (respondedState stateS2 "h2"
            (respondedHandshake handshakeFailed
              (generate_signature handshakeFailed.nonce (utf8Encode agentB.secret_seed)) true 5), true)
       ∧ (respondedHandshake handshakeFailed
            (generate_signature handshakeFailed.nonce (utf8Encode agentB.secret_seed)) true 5).signature
          = some (generate_signature handshakeFailed.nonce (utf8Encode agentB.secret_seed))
       ∧ (respondedHandshake handshakeFailed
            (generate_signature handshakeFailed.nonce (utf8Encode agentB.secret_seed)) true 5).signature_valid
          = some true
       ∧ (respondedHandshake handshakeFailed
            (generate_signature handshakeFailed.nonce (utf8Encode agentB.secret_seed)) true 5).response_time
          = some 5
       ∧ verify_handshake (respondedState stateS2 "h2"
            (respondedHandshake handshakeFailed
              (generate_signature handshakeFailed.nonce (utf8Encode agentB.secret_seed)) true 5)) "h2" "tok1" 6
          = .ok (verifiedState (respondedState stateS2 "h2"
                   (respondedHandshake handshakeFailed
                     (generate_signature handshakeFailed.nonce (utf8Encode agentB.secret_seed)) true 5)) "tok1"
                   (issuedSession "h2" "tok1"
                     (respondedHandshake handshakeFailed
                       (generate_signature handshakeFailed.nonce (utf8Encode agentB.secret_seed)) true 5) 6),
                 ⟨"verified", "tok1",
                  predict_anomaly stateS2.thresholds
                    (extract_features (respondedHandshake handshakeFailed
                      (generate_signature handshakeFailed.nonce (utf8Encode agentB.secret_seed)) true 5) 6),
                  6 + 300⟩)) :=
  ⟨rfl, rfl, rfl,
   c10_respond_overwrites_and_reenables_verify stateS2 handshakeFailed agentB
     "h2" "agent_b" "tok1" _ 5 6 rfl rfl rfl⟩

/-! ## C3 — re-verification is not rejected; each call issues a session -/

theorem lookupA_insertA_ne {α : Type} {j k : String} (v : α) (l : List (String × α))
    (hne : j ≠ k) : lookupA k (insertA j v l) = lookupA k l := by
  simp [lookupA, insertA, hne]

/-- C3 counterexample: re-verifying an already successfully verified
handshake is *not* rejected — the second `VerifyHandshake` call on the
state produced by the first one succeeds and returns a second, different
session token. -/
theorem c3_counterexample :
    ((verify_handshake stateS3 "h3" "tok1" 10).map
        (fun p => (verify_handshake p.1 "h3" "tok2" 20).map (fun q => q.2.session_token)))
      = .ok (.ok "tok2")
    ∧ "tok2" ≠ "tok1" := by
  exact ⟨rfl, by decide⟩

/-- C3 (amended): each successful `VerifyHandshake` call issues exactly
one session, but a handshake can be verified any number of times: the
handshake store is left unchanged, so a second call with a fresh token
succeeds as well and adds a second, distinct session alongside the
first — nothing rejects re-verification. -/
theorem c3_each_verify_issues_fresh_session
    (s : ServerState) (h : Handshake) (hid t1 t2 : String) (n1 n2 : ℚ)
    (hh : lookupA hid s.handshakes_db = some h)
    (hv : h.signature_valid.getD false = true)
    (hts : t2 ≠ t1) :
    ∃ (s1 : ServerState) (r1 : VerifyResult) (s2 : ServerState) (r2 : VerifyResult),
      verify_handshake s hid t1 n1 = .ok (s1, r1)
      ∧ r1.session_token = t1
      ∧ s1.handshakes_db = s.handshakes_db
      ∧ lookupA t1 s1.sessions_db = some (issuedSession hid t1 h n1)
      ∧ verify_handshake s1 hid t2 n2 = .ok (s2, r2)
      ∧ r2.session_token = t2
      ∧ lookupA t2 s2.sessions_db = some (issuedSession hid t2 h n2)
      ∧ lookupA t1 s2.sessions_db = some (issuedSession hid t1 h n1)
      ∧ issuedSession hid t1 h n1 ≠ issuedSession hid t2 h n2 := by
  refine ⟨verifiedState s t1 (issuedSession hid t1 h n1),
    ⟨"verified", t1, predict_anomaly s.thresholds (extract_features h n1), n1 + 300⟩,
    verifiedState (verifiedState s t1 (issuedSession hid t1 h n1)) t2
      (issuedSession hid t2 h n2),
    ⟨"verified", t2, predict_anomaly s.thresholds (extract_features h n2), n2 + 300⟩,
    verify_handshake_ok s hid t1 n1 h hh hv, rfl, rfl,
    by simp [verifiedState, lookupA_insertA_self], ?_, rfl,
    by simp [verifiedState, lookupA_insertA_self], ?_, ?_⟩
  · exact verify_handshake_ok _ hid t2 n2 h hh hv
  · show lookupA t1 (insertA t2 _ _) = _
    rw [lookupA_insertA_ne _ _ hts]
    simp [verifiedState, lookupA_insertA_self]
  · intro he
    exact hts (congrArg Session.token he).symm

/-- C3 witness: two verifications of `handshakeValid` under distinct
tokens both succeed and record two distinct sessions. -/
theorem c3_witness :
    lookupA "h3" stateS3.handshakes_db = some handshakeValid
    ∧ handshakeValid.signature_valid.getD false = true
    ∧ ∃ (s1 : ServerState) (r1 : VerifyResult) (s2 : ServerState) (r2 : VerifyResult),
        verify_handshake stateS3 "h3" "tok1" 10 = .ok (s1, r1)
        ∧ r1.session_token = "tok1"
        ∧ s1.handshakes_db = stateS3.handshakes_db
        ∧ lookupA "tok1" s1.sessions_db = some (issuedSession "h3" "tok1" handshakeValid 10)
        ∧ verify_handshake s1 "h3" "tok2" 20 = .ok (s2, r2)
        ∧ r2.session_token = "tok2"
        ∧ lookupA "tok2" s2.sessions_db = some (issuedSession "h3" "tok2" handshakeValid 20)
        ∧ lookupA "tok1" s2.sessions_db = some (issuedSession "h3" "tok1" handshakeValid 10)
        ∧ issuedSession "h3" "tok1" handshakeValid 10 ≠ issuedSession "h3" "tok2" handshakeValid 20 :=
  ⟨rfl, rfl,
   c3_each_verify_issues_fresh_session stateS3 handshakeValid "h3" "tok1" "tok2" 10 20
     rfl rfl (by decide)⟩

/-! ## C4 — what verify's failures look like to the caller -/

/-- C4: the `try` body of `/handshake/verify` does raise `NotFound` (404)
for an unknown handshake id and `Unauthorized` (401) for a handshake
whose `signature_valid` is not true — but the blanket
`except Exception as e: raise HTTPException(400, str(e))` catches both
deliberate `HTTPException`s, so the operation actually surfaces
status 400 (Bad Request) in both cases, with the intended status only
embedded in the detail text. -/
theorem c4_verify_errors_rewrapped_as_400 :
    verifyCore stateEmpty "nope" "tok" 0 = .error (.http 404 "Handshake not found")
    ∧ verify_handshake stateEmpty "nope" "tok" 0
        = .error (.http 400 "404: Handshake not found")
    ∧ verifyCore stateS1 "h1" "tok" 0 = .error (.http 401 "Invalid signature")
    ∧ verify_handshake stateS1 "h1" "tok" 0
        = .error (.http 400 "401: Invalid signature") := by
  exact ⟨rfl, rfl, rfl, rfl⟩

/-! ## C7 — the entropy feature -/

/-- The entropy summation depends only on the multiset of characters. -/
theorem entropyList_sum_perm (l1 l2 : List Char) (hp : l1.Perm l2) :
    (l1.dedup.map (entropyTerm l1)).sum = (l2.dedup.map (entropyTerm l2)).sum := by
  have hterm : entropyTerm l1 = entropyTerm l2 := by
    funext c
    unfold entropyTerm
    rw [hp.count_eq, hp.length_eq]
  rw [hterm]
  exact ((hp.dedup).map (entropyTerm l2)).sum_eq

/-- `calcEntropy` is exactly the claim's Shannon-entropy formula applied
to the lowercased string. -/
theorem calcEntropy_eq_spec_of_lower (s : String) :
    calcEntropy s = specShannonEntropy (pyLower s) := by
  unfold calcEntropy specShannonEntropy pyLower
  have hl : (String.mk (s.toList.map Char.toLower)).toList = s.toList.map Char.toLower := rfl
  rw [hl]
  cases hc : s.toList with
  | nil => simp
  | cons c cs => simp

/-- `calcEntropy` is invariant under permutations of the characters. -/
theorem calcEntropy_perm (s t : String) (hp : s.toList.Perm t.toList) :
    calcEntropy s = calcEntropy t := by
  have hpd : s.data.Perm t.data := hp
  by_cases hs : s.data = []
  · have ht : t.data = [] := by rw [hs] at hpd; exact hpd.symm.eq_nil
    have hs2 : s.toList = [] := hs
    have ht2 : t.toList = [] := ht
    simp [calcEntropy, hs, ht, hs2, ht2]
  · have ht : t.data ≠ [] := by
      intro h0
      rw [h0] at hpd
      exact hs hpd.eq_nil
    have hs2 : s.toList ≠ [] := hs
    have ht2 : t.toList ≠ [] := ht
    simp only [calcEntropy, List.isEmpty_iff, hs2, ht2, if_false]
    rw [entropyList_sum_perm _ _ (hp.map Char.toLower)]

/-- C7 counterexample: for the stored signature `"Aa"` the extracted
feature is the entropy of the *lowercased* string `"aa"`, namely 0,
whereas the claim's formula on the signature string itself gives 1 bit —
`_calculate_entropy` lowercases before counting, so the feature is not
the Shannon entropy of the signature string. -/
theorem c7_counterexample :
    handshakeAa.signature = some "Aa"
    ∧ (extract_features handshakeAa 1).message_entropy = 0
    ∧ specShannonEntropy "Aa" = 1
    ∧ (0 : ℝ) ≠ 1 := by
  refine ⟨rfl, ?_, ?_, by norm_num⟩
  · show calcEntropy "Aa" = 0
    have h1 : ("Aa".toList.map Char.toLower) = ['a', 'a'] := by decide
    have h0 : "Aa".toList.isEmpty = false := by decide
    rw [calcEntropy, h0, h1]
    have h2 : (['a', 'a'] : List Char).dedup = ['a'] := by decide
    rw [h2]
    have h3 : (['a', 'a'] : List Char).count 'a' = 2 := by decide
    simp [entropyTerm, h3]
  · have h1 : ("Aa".toList : List Char) = ['A', 'a'] := by decide
    have h0 : "Aa".toList.isEmpty = false := by decide
    rw [specShannonEntropy, h0, h1]
    have h2 : (['A', 'a'] : List Char).dedup = ['A', 'a'] := by decide
    rw [h2]
    have h3 : (['A', 'a'] : List Char).count 'A' = 1 := by decide
    have h4 : (['A', 'a'] : List Char).count 'a' = 1 := by decide
    have h5 : Real.logb 2 (2⁻¹ : ℝ) = -1 := by
      rw [Real.logb_inv, Real.logb_self_eq_one (by norm_num)]
    simp only [List.map_cons, List.map_nil, List.sum_cons, List.sum_nil, entropyTerm,
      h3, h4, List.length_cons, List.length_nil]
    push_cast
    have h6 : Real.logb 2 ((1 : ℝ) / 2) = -1 := by rw [one_div]; exact h5
    rw [h6]
    norm_num

/-- C7 (amended): the extracted `message_entropy` equals the Shannon
entropy, in bits, of the *lowercased* signature string (per-character
probability = count/length, entropy = −Σ p·log2 p); the entropy of an
empty or absent signature is 0; and the entropy is invariant under
character-order permutation of the same character multiset. -/
theorem c7_entropy_is_shannon_of_lowercase (h : Handshake) (now : ℚ) :
    (extract_features h now).message_entropy
        = specShannonEntropy (pyLower (h.signature.getD ""))
    ∧ calcEntropy "" = 0
    ∧ specShannonEntropy "" = 0
    ∧ (∀ s t : String, s.toList.Perm t.toList → calcEntropy s = calcEntropy t) :=
  ⟨calcEntropy_eq_spec_of_lower _, by simp [calcEntropy], by simp [specShannonEntropy],
   calcEntropy_perm⟩

/-- C7 witness: the amended theorem at `handshakeAa`, with its
permutation clause applied to the concrete anagram pair
`"Aa"` / `"aA"`. -/
theorem c7_witness :
    ((extract_features handshakeAa 1).message_entropy
        = specShannonEntropy (pyLower (handshakeAa.signature.getD "")))
    ∧ calcEntropy "Aa" = calcEntropy "aA" :=
  ⟨(c7_entropy_is_shannon_of_lowercase handshakeAa 1).1,
   (c7_entropy_is_shannon_of_lowercase handshakeAa 1).2.2.2 "Aa" "aA" (by decide)⟩

/-! ## C8 — the anomaly score -/

/-- `round3` is the identity on integer multiples of 1/1000. -/
theorem round3_eq_self {x : ℝ} (hx : ∃ k : ℤ, x = k / 1000) : round3 x = x := by
  obtain ⟨k, rfl⟩ := hx
  unfold round3
  have h : ((k : ℝ) / 1000) * 1000 = k := by field_simp
  rw [h, round_intCast]

/-- Every reachable rule score is an integer multiple of 1/1000 (indeed
of 1/20). -/
theorem ruleScore_div1000 (th : Thresholds) (f : Features) :
    ∃ k : ℤ, ruleScore th f = k / 1000 := by
  unfold ruleScore
  have e1 : ∃ k : ℤ, (if f.signature_verification = 0 then (0.6 : ℝ) else 0) = k / 1000 := by
    split_ifs
    exacts [⟨600, by norm_num⟩, ⟨0, by norm_num⟩]
  have e2 : ∃ k : ℤ, (if f.response_latency_ms < th.response_latency_ms.1 then (0.3 : ℝ)
      else if f.response_latency_ms > th.response_latency_ms.2 then 0.2 else 0) = k / 1000 := by
    split_ifs
    exacts [⟨300, by norm_num⟩, ⟨200, by norm_num⟩, ⟨0, by norm_num⟩]
  have e3 : ∃ k : ℤ, (if f.message_entropy < th.message_entropy then (0.25 : ℝ) else 0)
      = k / 1000 := by
    split_ifs
    exacts [⟨250, by norm_num⟩, ⟨0, by norm_num⟩]
  have e4 : ∃ k : ℤ, (if f.handshake_duration < th.handshake_duration.1 then (0.2 : ℝ)
      else if f.handshake_duration > th.handshake_duration.2 then 0.1 else 0) = k / 1000 := by
    split_ifs
    exacts [⟨200, by norm_num⟩, ⟨100, by norm_num⟩, ⟨0, by norm_num⟩]
  obtain ⟨k1, h1⟩ := e1
  obtain ⟨k2, h2⟩ := e2
  obtain ⟨k3, h3⟩ := e3
  obtain ⟨k4, h4⟩ := e4
  refine ⟨k1 + k2 + k3 + k4, ?_⟩
  rw [h1, h2, h3, h4]
  push_cast
  ring

/-- Every rule contributes a nonnegative weight. -/
theorem ruleScore_nonneg (th : Thresholds) (f : Features) : 0 ≤ ruleScore th f := by
  unfold ruleScore
  split_ifs <;> norm_num

/-- C8: `predictAnomaly` is the additive rule-based score — the clamp and
the 3-decimal rounding commute on every reachable sum (each being a
multiple of 0.05), so the code's `min(1.0, round(sum, 3))` equals the
claim's `min(1.0, sum)` rounded to 3 decimals, and the output always
lies in [0, 1]. -/
theorem c8_predict_anomaly_additive_bounded (th : Thresholds) (f : Features) :
    predict_anomaly th f = specPredictAnomaly th f
    ∧ predict_anomaly th f = min 1 (ruleScore th f)
    ∧ 0 ≤ predict_anomaly th f
    ∧ predict_anomaly th f ≤ 1 := by
  obtain ⟨k, hk⟩ := ruleScore_div1000 th f
  have hr : round3 (ruleScore th f) = ruleScore th f := round3_eq_self ⟨k, hk⟩
  have hmin : ∃ j : ℤ, min 1 (ruleScore th f) = j / 1000 := by
    rcases le_total (ruleScore th f) 1 with hle | hle
    · exact ⟨k, by rw [min_eq_right hle, hk]⟩
    · exact ⟨1000, by rw [min_eq_left hle]; norm_num⟩
  have hr2 : round3 (min 1 (ruleScore th f)) = min 1 (ruleScore th f) := round3_eq_self hmin
  have hpa : predict_anomaly th f = min 1 (ruleScore th f) := by
    unfold predict_anomaly
    rw [hr]
  refine ⟨?_, hpa, ?_, ?_⟩
  · rw [hpa]
    unfold specPredictAnomaly
    rw [hr2]
  · rw [hpa]
    exact le_min zero_le_one (ruleScore_nonneg th f)
  · rw [hpa]
    exact min_le_left _ _

/-! ## C9 — calibration on constant-latency data -/

theorem list_sum_of_const (c : ℝ) :
    ∀ (l : List ℝ), (∀ x ∈ l, x = c) → l.sum = l.length * c
  | [], _ => by simp
  | x :: xs, h => by
      rw [List.sum_cons, h x (List.mem_cons_self _ _),
        list_sum_of_const c xs (fun y hy => h y (List.mem_cons_of_mem _ hy)),
        List.length_cons]
      push_cast
      ring

theorem sampleMean_const (l : List ℝ) (c : ℝ) (hne : l ≠ [])
    (hc : ∀ x ∈ l, x = c) : sampleMean l = c := by
  unfold sampleMean
  rw [list_sum_of_const c l hc]
  have hlen : (l.length : ℝ) ≠ 0 :=
    Nat.cast_ne_zero.mpr (fun h0 => hne (List.length_eq_zero.mp h0))
  field_simp

/-- The sample standard deviation of a constant list is 0 — not the
fallback constant. -/
theorem sampleStdev_const (l : List ℝ) (c : ℝ) (hne : l ≠ [])
    (hc : ∀ x ∈ l, x = c) : sampleStdev l = 0 := by
  have hm : sampleMean l = c := sampleMean_const l c hne hc
  unfold sampleStdev
  have hz : (l.map fun x => (x - sampleMean l) ^ 2) = l.map (fun _ => 0) := by
    apply List.map_congr_left
    intro x hx
    rw [hc x hx, hm]
    ring
  rw [hz]
  simp

/-- Calibrating on data whose non-fraud samples all share one latency
value `c` (with at least two of them) floors nothing: the std used is the
sample standard deviation 0, and the latency range becomes
`(max 10 c, c)`. -/
theorem calculate_thresholds_const_latency (td : List Sample) (th : Thresholds) (c : ℝ)
    (hn : 2 ≤ (td.filter (fun d => !d.is_fraud)).length)
    (hc : ∀ d ∈ td.filter (fun d => !d.is_fraud), d.response_latency_ms = c) :
    (calculate_thresholds td th).response_latency_ms = (max 10 c, c)
    ∧ sampleStdev ((td.filter (fun d => !d.is_fraud)).map (fun d => d.response_latency_ms)) = 0 := by
  have hnormalne : td.filter (fun d => !d.is_fraud) ≠ [] := by
    intro h0
    rw [h0] at hn
    simp at hn
  have htdne : ¬td.isEmpty := by
    intro h0
    rw [List.isEmpty_iff.mp h0] at hnormalne
    simp at hnormalne
  have hlatne : (td.filter (fun d => !d.is_fraud)).map (fun d => d.response_latency_ms) ≠ [] := by
    intro h0
    exact hnormalne (List.map_eq_nil_iff.mp h0)
  have hallc : ∀ x ∈ (td.filter (fun d => !d.is_fraud)).map (fun d => d.response_latency_ms),
      x = c := by
    intro x hx
    obtain ⟨d, hd, rfl⟩ := List.mem_map.mp hx
    exact hc d hd
  have hmean : sampleMean ((td.filter (fun d => !d.is_fraud)).map
      (fun d => d.response_latency_ms)) = c := sampleMean_const _ c hlatne hallc
  have hstd : sampleStdev ((td.filter (fun d => !d.is_fraud)).map
      (fun d => d.response_latency_ms)) = 0 := sampleStdev_const _ c hlatne hallc
  refine ⟨?_, hstd⟩
  have hlen : ((td.filter (fun d => !d.is_fraud)).map
      (fun d => d.response_latency_ms)).length > 1 := by
    rw [List.length_map]
    omega
  unfold calculate_thresholds
  simp only [htdne, if_false, Bool.false_eq_true]
  rw [if_neg (by simpa using hnormalne)]
  rw [if_pos hlen, hmean, hstd]
  norm_num

/-- C9 counterexample: calibrating on `c9data` (two non-fraud samples,
both with latency exactly 150) *does* produce a degenerate zero-width
latency range `(150, 150)`: the standard deviation used is the sample
standard deviation 0, not the `50` fallback (which applies only when the
sample count is ≤ 1 and would have yielded `(50, 300)`). -/
theorem c9_counterexample :
    (calculate_thresholds c9data defaultThresholds).response_latency_ms = (150, 150)
    ∧ (calculate_thresholds c9data defaultThresholds).response_latency_ms.1
        = (calculate_thresholds c9data defaultThresholds).response_latency_ms.2
    ∧ ((150 : ℝ), (150 : ℝ)) ≠ (max 10 (150 - 2 * 50), (150 : ℝ) + 3 * 50) := by
  have hc : ∀ d ∈ c9data.filter (fun d => !d.is_fraud), d.response_latency_ms = 150 := by
    have hf : c9data.filter (fun d => !d.is_fraud) = c9data := rfl
    rw [hf]
    intro d hd
    simp only [c9data, List.mem_cons, List.not_mem_nil, or_false] at hd
    rcases hd with rfl | rfl <;> rfl
  have h := calculate_thresholds_const_latency c9data defaultThresholds 150 (by decide) hc
  have hmax : max (10 : ℝ) 150 = 150 := by norm_num
  refine ⟨by rw [h.1, hmax], by rw [h.1, hmax], ?_⟩
  intro he
  rw [Prod.ext_iff] at he
  have := he.2
  norm_num at this

/-- C9 (amended): calibrating the ThresholdModel on a dataset whose
non-fraud samples (two or more of them) all share one latency value `c`
does not divide by zero — the sample-stdev divisor `n − 1` is at least 1
— but the standard deviation is the honestly computed 0, *not* the
fallback value used when the sample count is at most 1, so the latency
range `[max(10, mean − 2·std), mean + 3·std]` degenerates to
`(max 10 c, c)` — zero-width whenever `c ≥ 10`. -/
theorem c9_constant_latency_gives_degenerate_range
    (td : List Sample) (th : Thresholds) (c : ℝ)
    (hn : 2 ≤ (td.filter (fun d => !d.is_fraud)).length)
    (hc : ∀ d ∈ td.filter (fun d => !d.is_fraud), d.response_latency_ms = c) :
    (calculate_thresholds td th).response_latency_ms = (max 10 c, c)
    ∧ sampleStdev ((td.filter (fun d => !d.is_fraud)).map (fun d => d.response_latency_ms)) = 0
    ∧ 1 ≤ (((td.filter (fun d => !d.is_fraud)).map
          (fun d => d.response_latency_ms)).length : ℝ) - 1 := by
  obtain ⟨h1, h2⟩ := calculate_thresholds_const_latency td th c hn hc
  refine ⟨h1, h2, ?_⟩
  rw [List.length_map]
  have : (2 : ℝ) ≤ ((td.filter (fun d => !d.is_fraud)).length : ℝ) := by
    exact_mod_cast hn
  linarith

/-- C9 witness: the amended theorem applied to the concrete dataset
`c9data`. -/
theorem c9_witness :
    2 ≤ (c9data.filter (fun d => !d.is_fraud)).length
    ∧ ((calculate_thresholds c9data defaultThresholds).response_latency_ms = (max 10 150, 150)
       ∧ sampleStdev ((c9data.filter (fun d => !d.is_fraud)).map
            (fun d => d.response_latency_ms)) = 0
       ∧ 1 ≤ (((c9data.filter (fun d => !d.is_fraud)).map
            (fun d => d.response_latency_ms)).length : ℝ) - 1) :=
  ⟨by decide,
   c9_constant_latency_gives_degenerate_range c9data defaultThresholds 150 (by decide)
     (by
       have hf : c9data.filter (fun d => !d.is_fraud) = c9data := rfl
       rw [hf]
       intro d hd
       simp only [c9data, List.mem_cons, List.not_mem_nil, or_false] at hd
       rcases hd with rfl | rfl <;> rfl)⟩
